import Mathlib

/-!
Verification of the `text2voicevox` command-line tool (src/main.go).

The tool is a thin pipeline over a local VOICEVOX HTTP engine:
resolve a speaker name to a style id, read an input text file, request an
audio query, overwrite some scalar fields from command-line flags, submit
the query for synthesis, and write the returned bytes to a file.

Shallow embedding choices:
* Go `float64` flag and query fields are modelled as `Rat`.  The tool never
  performs arithmetic on these values — it only copies them and compares
  them for exact equality against the sentinel `-1.0` — so an exact numeric
  type captures the behaviour faithfully.
* HTTP interactions are modelled by `FetchResult`: `none` stands for a
  transport failure (connection error), `some r` carries the response
  status code, the raw body text, and the result of JSON-decoding the body
  (`none` = malformed body).  Each client operation is a pure function of
  the fetch outcome.
* The opaque `accent_phrases` JSON array (Go `[]interface{}`) is modelled
  as `List String`: an ordered sequence of opaque values that the tool
  never inspects.
* `main` is modelled by `runMain`, a pure function from parsed flags and an
  environment (the engine's responses and the file system) to an exit code
  plus the ordered list of observable effects (network calls, file reads
  and writes, stdout and stderr output).
-/

instance {ε α : Type} [DecidableEq ε] [DecidableEq α] :
    DecidableEq (Except ε α) := fun x y =>
  match x, y with
  | .error a, .error b =>
    if h : a = b then .isTrue (by rw [h]) else .isFalse (by simp [h])
  | .ok a, .ok b =>
    if h : a = b then .isTrue (by rw [h]) else .isFalse (by simp [h])
  | .error _, .ok _ => .isFalse (by simp)
  | .ok _, .error _ => .isFalse (by simp)

/-- Embeds Go struct `SpeakerStyle` (src/main.go lines 39-42). -/
structure SpeakerStyle where
  name : String
  id : Int
  deriving DecidableEq, Repr

/-- Embeds Go struct `Speaker` (src/main.go lines 31-36). -/
structure Speaker where
  name : String
  speakerUUID : String
  styles : List SpeakerStyle
  version : String
  deriving DecidableEq, Repr

/-- Embeds Go struct `AudioQuery` (src/main.go lines 17-28).
`accentPhrases` models the opaque `[]interface{}` JSON array. -/
structure AudioQuery where
  accentPhrases : List String
  speedScale : Rat
  pitchScale : Rat
  intonationScale : Rat
  volumeScale : Rat
  prePhonemeLength : Rat
  postPhonemeLength : Rat
  outputSamplingRate : Int
  outputStereo : Bool
  kana : String
  deriving DecidableEq, Repr

/-- The error kinds the client operations can produce, following the
`fmt.Errorf` messages in src/main.go.  `protocolError` carries the HTTP
status code and, when the Go code includes it in the message
(`createAudioQuery`, `synthesis`), the raw response body text. -/
inductive VVError where
  | connectionError
  | protocolError (status : Nat) (body : Option String)
  | decodeError
  | speakerNotFound (name : String)
  | bodyReadError
  deriving DecidableEq, Repr

/-- Outcome of one HTTP exchange: status code, raw body text, and the
result of decoding the body into the expected shape (`none` on malformed
JSON, or on a failed body read for the synthesis call). -/
structure FetchResult (α : Type) where
  status : Nat
  body : String
  decoded : Option α
  deriving DecidableEq, Repr

/-- Embeds the response handling of `Client.listSpeakers`
(src/main.go lines 88-102): connection failure, then the
`resp.StatusCode != http.StatusOK` check, then JSON decoding. -/
def listSpeakersOp (fetch : Option (FetchResult (List Speaker))) :
    Except VVError (List Speaker) :=
  match fetch with
  | none => .error .connectionError
  | some r =>
    if r.status = 200 then
      match r.decoded with
      | some sps => .ok sps
      | none => .error .decodeError
    else .error (.protocolError r.status none)

/-- Embeds the scanning loop of `Client.findSpeakerID`
(src/main.go lines 75-82): the first entry whose name equals the request
AND whose style list is non-empty yields its first style; a matching entry
with an empty style list is skipped and the scan continues. -/
def scanSpeakers (speakers : List Speaker) (name : String) :
    Option SpeakerStyle :=
  match speakers with
  | [] => none
  | sp :: rest =>
    match sp.styles with
    | st :: _ => if sp.name = name then some st else scanSpeakers rest name
    | [] => scanSpeakers rest name

/-- Embeds `Client.findSpeakerID` (src/main.go lines 59-85) up to the
selected style (the Go code returns `styles[0].ID` and prints
`styles[0].Name`; keeping the whole style lets `runMain` reproduce the
confirmation output). -/
def resolveStyle (fetch : Option (FetchResult (List Speaker)))
    (name : String) : Except VVError SpeakerStyle :=
  match fetch with
  | none => .error .connectionError
  | some r =>
    if r.status = 200 then
      match r.decoded with
      | some sps =>
        match scanSpeakers sps name with
        | some st => .ok st
        | none => .error (.speakerNotFound name)
      | none => .error .decodeError
    else .error (.protocolError r.status none)

/-- Embeds `Client.findSpeakerID` (src/main.go lines 59-85): returns the
integer identifier of the selected style. -/
def findSpeakerID (fetch : Option (FetchResult (List Speaker)))
    (name : String) : Except VVError Int :=
  (resolveStyle fetch name).map (fun st => st.id)

/-- Embeds the response handling of `Client.createAudioQuery`
(src/main.go lines 118-151): on non-200 status the error carries the
status code and the raw body text. -/
def createAudioQuery (fetch : Option (FetchResult AudioQuery)) :
    Except VVError AudioQuery :=
  match fetch with
  | none => .error .connectionError
  | some r =>
    if r.status = 200 then
      match r.decoded with
      | some q => .ok q
      | none => .error .decodeError
    else .error (.protocolError r.status (some r.body))

/-- Embeds the response handling of `Client.synthesis`
(src/main.go lines 154-181): on non-200 status the error carries the
status code and body; on 200 the raw body bytes are returned (`none` in
`decoded` models a failed `io.ReadAll` of the WAV body). -/
def synthesis (fetch : Option (FetchResult (List Nat))) :
    Except VVError (List Nat) :=
  match fetch with
  | none => .error .connectionError
  | some r =>
    if r.status = 200 then
      match r.decoded with
      | some wav => .ok wav
      | none => .error .bodyReadError
    else .error (.protocolError r.status (some r.body))

/-- Embeds the parsed command-line flags with their Go defaults
(src/main.go lines 188-200). -/
structure Flags where
  inputFile : String := ""
  outputFile : String := ""
  actorName : String := "ずんだもん"
  port : Int := 50021
  showActors : Bool := false
  speed : Rat := 1
  pitch : Rat := 0
  intonation : Rat := 1
  volume : Rat := 1
  prePhoneme : Rat := -1
  postPhoneme : Rat := -1
  deriving DecidableEq, Repr

/-- The flag values when every flag is omitted on the command line. -/
def defaultFlags : Flags := {}

/-- Embeds the parameter-override block of `main`
(src/main.go lines 251-260): speed, pitch, intonation and volume are
always overwritten; the pre/post phoneme silences only when the flag
value differs from the sentinel `-1.0`. -/
def applyOverrides (f : Flags) (q : AudioQuery) : AudioQuery :=
  { q with
    speedScale := f.speed
    pitchScale := f.pitch
    intonationScale := f.intonation
    volumeScale := f.volume
    prePhonemeLength :=
      if f.prePhoneme ≠ -1 then f.prePhoneme else q.prePhonemeLength
    postPhonemeLength :=
      if f.postPhoneme ≠ -1 then f.postPhoneme else q.postPhonemeLength }

/-- Observable effects of a run of `main`, in program order: network
calls, file reads and writes, stdout output (`out...`) and stderr output
(`err...`).  Progress prints that carry data used by the claims are
structured; fixed-text prints are bare constructors. -/
inductive Event where
  | netSpeakers
  | netAudioQuery (text : String) (speaker : Int)
  | netSynthesis (query : AudioQuery) (speaker : Int)
  | readFile (path : String)
  | writeFile (path : String) (data : List Nat)
  | outListHeader
  | outSpeakerName (name : String)
  | outStyle (name : String) (id : Int)
  | outListFooter
  | outActorHint
  | outResolved (actor styleName : String) (id : Int)
  | outReading (path : String)
  | outCreatingQuery
  | outAdjusting
  | outSynthesizing
  | outDone (path : String)
  | errMsg (e : VVError)
  | errUsage
  | errFileRead
  | errFileWrite
  deriving DecidableEq, Repr

/-- True for the effects that list-speakers mode and the usage error path
must not perform: the query/synthesis network calls and any file access. -/
def Event.isPipelineEffect : Event → Bool
  | .netAudioQuery _ _ => true
  | .netSynthesis _ _ => true
  | .readFile _ => true
  | .writeFile _ _ => true
  | _ => false

/-- The environment a run executes against: the engine's response to each
endpoint and the file system.  `none` models connection or I/O failure. -/
structure Env where
  speakers : Option (FetchResult (List Speaker))
  fileRead : String → Option String
  audioQuery : String → Int → Option (FetchResult AudioQuery)
  synthesisResp : AudioQuery → Int → Option (FetchResult (List Nat))
  fileWrite : String → List Nat → Bool

/-- Exit code and ordered effect trace of one run of `main`. -/
structure RunResult where
  exitCode : Nat
  events : List Event
  deriving DecidableEq, Repr

/-- The stdout lines of `Client.listSpeakers` between header and footer
(src/main.go lines 105-110): each speaker's name followed by each of its
styles with name and id, in catalog order. -/
def listingEvents : List Speaker → List Event
  | [] => []
  | sp :: rest =>
    Event.outSpeakerName sp.name ::
      (sp.styles.map (fun st => Event.outStyle st.name st.id) ++
        listingEvents rest)

/-- Embeds `main` (src/main.go lines 185-280) as a pure function of the
parsed flags and the environment, producing the exit code and the ordered
trace of observable effects. -/
def runMain (f : Flags) (env : Env) : RunResult :=
  if f.showActors then
    match listSpeakersOp env.speakers with
    | .error e => ⟨1, [.netSpeakers, .errMsg e]⟩
    | .ok sps =>
      ⟨0, [.netSpeakers, .outListHeader] ++ listingEvents sps ++
        [.outListFooter, .outActorHint]⟩
  else if f.inputFile = "" ∨ f.outputFile = "" then
    ⟨1, [.errUsage]⟩
  else
    match resolveStyle env.speakers f.actorName with
    | .error e => ⟨1, [.netSpeakers, .errMsg e]⟩
    | .ok st =>
      let ev1 : List Event :=
        [.netSpeakers, .outResolved f.actorName st.name st.id,
          .outReading f.inputFile, .readFile f.inputFile]
      match env.fileRead f.inputFile with
      | none => ⟨1, ev1 ++ [.errFileRead]⟩
      | some text =>
        let ev2 := ev1 ++ [Event.outCreatingQuery,
          Event.netAudioQuery text st.id]
        match createAudioQuery (env.audioQuery text st.id) with
        | .error e => ⟨1, ev2 ++ [.errMsg e]⟩
        | .ok q0 =>
          let q := applyOverrides f q0
          let ev3 := ev2 ++ [Event.outAdjusting, Event.outSynthesizing,
            Event.netSynthesis q st.id]
          match synthesis (env.synthesisResp q st.id) with
          | .error e => ⟨1, ev3 ++ [.errMsg e]⟩
          | .ok wav =>
            let ev4 := ev3 ++ [Event.writeFile f.outputFile wav]
            if env.fileWrite f.outputFile wav then
              ⟨0, ev4 ++ [.outDone f.outputFile]⟩
            else ⟨1, ev4 ++ [.errFileWrite]⟩

/-- In any run that gets past query creation, the query the tool submits
to the synthesis endpoint is exactly `applyOverrides` of the query the
engine returned from query creation. -/
theorem runMain_submits (f : Flags) (env : Env) (st : SpeakerStyle)
    (text : String) (q0 : AudioQuery)
    (hshow : f.showActors = false)
    (hio : ¬(f.inputFile = "" ∨ f.outputFile = ""))
    (hres : resolveStyle env.speakers f.actorName = .ok st)
    (hread : env.fileRead f.inputFile = some text)
    (hq : createAudioQuery (env.audioQuery text st.id) = .ok q0) :
    Event.netSynthesis (applyOverrides f q0) st.id ∈ (runMain f env).events := by
  simp only [runMain, hshow, if_neg hio, hres, hread, hq, Bool.false_eq_true,
    if_false]
  cases hsyn : synthesis (env.synthesisResp (applyOverrides f q0) st.id) with
  | error e => simp
  | ok wav =>
    by_cases hw : env.fileWrite f.outputFile wav <;> simp [hw]

/-- Concrete speaker catalog entry used by the evaluation fixtures. -/
def wSpeaker : Speaker := ⟨"ずんだもん", "uuid-1", [⟨"ノーマル", 3⟩], "0.14"⟩

/-- Concrete engine-returned query used by the evaluation fixtures. -/
def wQuery : AudioQuery :=
  ⟨["phrase-a", "phrase-b"], 9, 9, 9, 9, 7, 8, 24000, false, "カナ"⟩

/-- Concrete environment used by the evaluation fixtures: every engine
call and file operation succeeds. -/
def wEnv : Env where
  speakers := some ⟨200, "[]", some [wSpeaker]⟩
  fileRead := fun _ => some "こんにちは"
  audioQuery := fun _ _ => some ⟨200, "", some wQuery⟩
  synthesisResp := fun _ _ => some ⟨200, "", some [82, 73, 70, 70]⟩
  fileWrite := fun _ _ => true

/-- Concrete flags used by the evaluation fixtures: input and output
paths set, everything else at its default. -/
def wFlags : Flags := { inputFile := "in.txt", outputFile := "out.wav" }

/-- C1: in every synthesis run, the pre-phoneme and post-phoneme silence
fields of the query submitted to synthesis equal the flag value whenever
that value differs from -1.0, and equal the value returned by query
creation whenever the flag value is exactly -1.0. -/
theorem c1_phoneme_silence_sentinel (f : Flags) (env : Env)
    (st : SpeakerStyle) (text : String) (q0 : AudioQuery)
    (hshow : f.showActors = false)
    (hio : ¬(f.inputFile = "" ∨ f.outputFile = ""))
    (hres : resolveStyle env.speakers f.actorName = .ok st)
    (hread : env.fileRead f.inputFile = some text)
    (hq : createAudioQuery (env.audioQuery text st.id) = .ok q0) :
    Event.netSynthesis (applyOverrides f q0) st.id ∈ (runMain f env).events ∧
    (f.prePhoneme ≠ -1 →
      (applyOverrides f q0).prePhonemeLength = f.prePhoneme) ∧
    (f.prePhoneme = -1 →
      (applyOverrides f q0).prePhonemeLength = q0.prePhonemeLength) ∧
    (f.postPhoneme ≠ -1 →
      (applyOverrides f q0).postPhonemeLength = f.postPhoneme) ∧
    (f.postPhoneme = -1 →
      (applyOverrides f q0).postPhonemeLength = q0.postPhonemeLength) := by
  refine ⟨runMain_submits f env st text q0 hshow hio hres hread hq,
    ?_, ?_, ?_, ?_⟩ <;> intro h <;> simp [applyOverrides, h]

/-- C1 witness: the hypotheses hold and the theorem applies in the
concrete fixture run (pre-phoneme flag set to 1/2, post-phoneme left at
the sentinel). -/
theorem c1_phoneme_silence_sentinel_witness :
    ({ wFlags with prePhoneme := 1/2 }.showActors = false) ∧
    ¬({ wFlags with prePhoneme := 1/2 }.inputFile = "" ∨
      { wFlags with prePhoneme := 1/2 }.outputFile = "") ∧
    (resolveStyle wEnv.speakers
      { wFlags with prePhoneme := 1/2 }.actorName = .ok ⟨"ノーマル", 3⟩) ∧
    (wEnv.fileRead { wFlags with prePhoneme := 1/2 }.inputFile =
      some "こんにちは") ∧
    (createAudioQuery (wEnv.audioQuery "こんにちは" 3) = .ok wQuery) ∧
    (Event.netSynthesis (applyOverrides { wFlags with prePhoneme := 1/2 }
        wQuery) 3 ∈
      (runMain { wFlags with prePhoneme := 1/2 } wEnv).events ∧
    ({ wFlags with prePhoneme := 1/2 }.prePhoneme ≠ -1 →
      (applyOverrides { wFlags with prePhoneme := 1/2 }
        wQuery).prePhonemeLength =
        { wFlags with prePhoneme := 1/2 }.prePhoneme) ∧
    ({ wFlags with prePhoneme := 1/2 }.prePhoneme = -1 →
      (applyOverrides { wFlags with prePhoneme := 1/2 }
        wQuery).prePhonemeLength = wQuery.prePhonemeLength) ∧
    ({ wFlags with prePhoneme := 1/2 }.postPhoneme ≠ -1 →
      (applyOverrides { wFlags with prePhoneme := 1/2 }
        wQuery).postPhonemeLength =
        { wFlags with prePhoneme := 1/2 }.postPhoneme) ∧
    ({ wFlags with prePhoneme := 1/2 }.postPhoneme = -1 →
      (applyOverrides { wFlags with prePhoneme := 1/2 }
        wQuery).postPhonemeLength = wQuery.postPhonemeLength)) :=
  ⟨by decide, by decide, by decide, by decide, by decide,
    c1_phoneme_silence_sentinel { wFlags with prePhoneme := 1/2 } wEnv
      ⟨"ノーマル", 3⟩ "こんにちは" wQuery (by decide) (by decide)
      (by decide) (by decide) (by decide)⟩

/-- C2: in every synthesis run, the speed, pitch, intonation and volume
scale fields of the query submitted to synthesis equal the flag-supplied
values, regardless of the values returned by query creation. -/
theorem c2_scales_always_overwritten (f : Flags) (env : Env)
    (st : SpeakerStyle) (text : String) (q0 : AudioQuery)
    (hshow : f.showActors = false)
    (hio : ¬(f.inputFile = "" ∨ f.outputFile = ""))
    (hres : resolveStyle env.speakers f.actorName = .ok st)
    (hread : env.fileRead f.inputFile = some text)
    (hq : createAudioQuery (env.audioQuery text st.id) = .ok q0) :
    Event.netSynthesis (applyOverrides f q0) st.id ∈ (runMain f env).events ∧
    (applyOverrides f q0).speedScale = f.speed ∧
    (applyOverrides f q0).pitchScale = f.pitch ∧
    (applyOverrides f q0).intonationScale = f.intonation ∧
    (applyOverrides f q0).volumeScale = f.volume :=
  ⟨runMain_submits f env st text q0 hshow hio hres hread hq,
    rfl, rfl, rfl, rfl⟩

/-- C2 witness: the hypotheses hold and the theorem applies in the
concrete fixture run (flags at their defaults speed 1, pitch 0,
intonation 1, volume 1, engine-returned scales all 9). -/
theorem c2_scales_always_overwritten_witness :
    (wFlags.showActors = false) ∧
    ¬(wFlags.inputFile = "" ∨ wFlags.outputFile = "") ∧
    (resolveStyle wEnv.speakers wFlags.actorName = .ok ⟨"ノーマル", 3⟩) ∧
    (wEnv.fileRead wFlags.inputFile = some "こんにちは") ∧
    (createAudioQuery (wEnv.audioQuery "こんにちは" 3) = .ok wQuery) ∧
    (Event.netSynthesis (applyOverrides wFlags wQuery) 3 ∈
      (runMain wFlags wEnv).events ∧
    (applyOverrides wFlags wQuery).speedScale = wFlags.speed ∧
    (applyOverrides wFlags wQuery).pitchScale = wFlags.pitch ∧
    (applyOverrides wFlags wQuery).intonationScale = wFlags.intonation ∧
    (applyOverrides wFlags wQuery).volumeScale = wFlags.volume) :=
  ⟨by decide, by decide, by decide, by decide, by decide,
    c2_scales_always_overwritten wFlags wEnv ⟨"ノーマル", 3⟩ "こんにちは"
      wQuery (by decide) (by decide) (by decide) (by decide) (by decide)⟩

/-- C5: between query creation and synthesis only the six scalar controls
may change; the submitted query's accent-phrase breakdown, output
sampling rate, output stereo flag and kana string are identical to those
returned by query creation. -/
theorem c5_opaque_fields_roundtrip (f : Flags) (env : Env)
    (st : SpeakerStyle) (text : String) (q0 : AudioQuery)
    (hshow : f.showActors = false)
    (hio : ¬(f.inputFile = "" ∨ f.outputFile = ""))
    (hres : resolveStyle env.speakers f.actorName = .ok st)
    (hread : env.fileRead f.inputFile = some text)
    (hq : createAudioQuery (env.audioQuery text st.id) = .ok q0) :
    Event.netSynthesis (applyOverrides f q0) st.id ∈ (runMain f env).events ∧
    (applyOverrides f q0).accentPhrases = q0.accentPhrases ∧
    (applyOverrides f q0).outputSamplingRate = q0.outputSamplingRate ∧
    (applyOverrides f q0).outputStereo = q0.outputStereo ∧
    (applyOverrides f q0).kana = q0.kana :=
  ⟨runMain_submits f env st text q0 hshow hio hres hread hq,
    rfl, rfl, rfl, rfl⟩

/-- C5 witness: the hypotheses hold and the theorem applies in the
concrete fixture run. -/
theorem c5_opaque_fields_roundtrip_witness :
    (wFlags.showActors = false) ∧
    ¬(wFlags.inputFile = "" ∨ wFlags.outputFile = "") ∧
    (resolveStyle wEnv.speakers wFlags.actorName = .ok ⟨"ノーマル", 3⟩) ∧
    (wEnv.fileRead wFlags.inputFile = some "こんにちは") ∧
    (createAudioQuery (wEnv.audioQuery "こんにちは" 3) = .ok wQuery) ∧
    (Event.netSynthesis (applyOverrides wFlags wQuery) 3 ∈
      (runMain wFlags wEnv).events ∧
    (applyOverrides wFlags wQuery).accentPhrases = wQuery.accentPhrases ∧
    (applyOverrides wFlags wQuery).outputSamplingRate =
      wQuery.outputSamplingRate ∧
    (applyOverrides wFlags wQuery).outputStereo = wQuery.outputStereo ∧
    (applyOverrides wFlags wQuery).kana = wQuery.kana) :=
  ⟨by decide, by decide, by decide, by decide, by decide,
    c5_opaque_fields_roundtrip wFlags wEnv ⟨"ノーマル", 3⟩ "こんにちは"
      wQuery (by decide) (by decide) (by decide) (by decide) (by decide)⟩

/-- If the first catalog entry bearing the requested name has a non-empty
style list, the scan stops there and yields that entry's first style. -/
theorem scanSpeakers_first_match (sps : List Speaker) (name : String)
    (sp : Speaker) (st : SpeakerStyle) (rest : List SpeakerStyle)
    (hfind : sps.find? (fun x => x.name == name) = some sp)
    (hstyles : sp.styles = st :: rest) :
    scanSpeakers sps name = some st := by
  induction sps with
  | nil => simp at hfind
  | cons hd tl ih =>
    by_cases h : hd.name = name
    · rw [List.find?_cons_of_pos _ (by simp [h])] at hfind
      injection hfind with he
      subst he
      rw [scanSpeakers, hstyles]
      simp [h]
    · rw [List.find?_cons_of_neg _ (by simp [h])] at hfind
      rw [scanSpeakers]
      cases hsty : hd.styles with
      | nil => exact ih hfind
      | cons a l => simpa [h] using ih hfind

/-- C3: if the first catalog entry whose display name exactly equals the
requested name has a non-empty style list, resolution returns the integer
identifier of that entry's first style. -/
theorem c3_first_style_of_first_match (sps : List Speaker) (name : String)
    (sp : Speaker) (st : SpeakerStyle) (rest : List SpeakerStyle)
    (b : String)
    (hfind : sps.find? (fun x => x.name == name) = some sp)
    (hstyles : sp.styles = st :: rest) :
    findSpeakerID (some ⟨200, b, some sps⟩) name = .ok st.id := by
  simp [findSpeakerID, resolveStyle, Except.map,
    scanSpeakers_first_match sps name sp st rest hfind hstyles]

/-- C3 witness: the hypotheses hold and the theorem applies on the
concrete one-entry catalog. -/
theorem c3_first_style_of_first_match_witness :
    ([wSpeaker].find? (fun x => x.name == "ずんだもん") = some wSpeaker) ∧
    (wSpeaker.styles = ⟨"ノーマル", 3⟩ :: []) ∧
    findSpeakerID (some ⟨200, "[]", some [wSpeaker]⟩) "ずんだもん" =
      .ok (3 : Int) :=
  ⟨by decide, by decide,
    c3_first_style_of_first_match [wSpeaker] "ずんだもん" wSpeaker
      ⟨"ノーマル", 3⟩ [] "[]" (by decide) (by decide)⟩

/-- Catalog exhibiting the C4 counterexample: the first entry named
"Alice" has no styles; a later entry named "Alice" has one. -/
def c4Catalog : List Speaker :=
  [⟨"Alice", "uuid-a", [], "1"⟩, ⟨"Alice", "uuid-b", [⟨"Normal", 5⟩], "1"⟩]

/-- C4 counterexample: the first entry named "Alice" has an empty style
list, yet resolution succeeds with the later entry's first style id
instead of failing with SpeakerNotFound — the Go loop skips a
name-matching entry whose style list is empty and keeps scanning. -/
theorem c4_counterexample_empty_styles_skipped :
    (c4Catalog.find? (fun x => x.name == "Alice") =
      some ⟨"Alice", "uuid-a", [], "1"⟩) ∧
    findSpeakerID (some ⟨200, "", some c4Catalog⟩) "Alice" =
      .ok (5 : Int) ∧
    findSpeakerID (some ⟨200, "", some c4Catalog⟩) "Alice" ≠
      .error (.speakerNotFound "Alice") := by decide

/-- C4 amended: resolution fails with SpeakerNotFound exactly when no
catalog entry both bears the requested name and has a non-empty style
list; a name-matching entry with an empty style list is skipped rather
than causing the failure by itself. -/
theorem c4_not_found_amended (sps : List Speaker) (name : String)
    (b : String)
    (h : ∀ sp ∈ sps, sp.name = name → sp.styles = []) :
    findSpeakerID (some ⟨200, b, some sps⟩) name =
      .error (.speakerNotFound name) := by
  have hscan : scanSpeakers sps name = none := by
    induction sps with
    | nil => rfl
    | cons hd tl ih =>
      rw [scanSpeakers]
      cases hsty : hd.styles with
      | nil => exact ih (fun sp hm hn => h sp (List.mem_cons_of_mem hd hm) hn)
      | cons a l =>
        have hne : hd.name ≠ name := by
          intro hn
          have := h hd (List.mem_cons_self hd tl) hn
          rw [hsty] at this
          exact List.noConfusion this
        simpa [hne] using
          ih (fun sp hm hn => h sp (List.mem_cons_of_mem hd hm) hn)
  simp [findSpeakerID, resolveStyle, Except.map, hscan]

/-- C4 amended witness: the hypotheses hold and the theorem applies on a
catalog whose only entry has a different name. -/
theorem c4_not_found_amended_witness :
    (∀ sp ∈ [wSpeaker], sp.name = "四国めたん" → sp.styles = []) ∧
    findSpeakerID (some ⟨200, "[]", some [wSpeaker]⟩) "四国めたん" =
      .error (.speakerNotFound "四国めたん") :=
  ⟨by decide,
    c4_not_found_amended [wSpeaker] "四国めたん" "[]" (by decide)⟩

/-- C6: whenever the engine responds with a status other than 200 — in
particular every non-success status — each client operation fails with a
protocol error carrying that status code, and for query creation and
synthesis also the raw response body text. -/
theorem c6_protocol_error_carries_status (s : Nat) (hs : s ≠ 200)
    (b : String) (dsp : Option (List Speaker)) (dq : Option AudioQuery)
    (dw : Option (List Nat)) (name : String) :
    listSpeakersOp (some ⟨s, b, dsp⟩) = .error (.protocolError s none) ∧
    findSpeakerID (some ⟨s, b, dsp⟩) name =
      .error (.protocolError s none) ∧
    createAudioQuery (some ⟨s, b, dq⟩) =
      .error (.protocolError s (some b)) ∧
    synthesis (some ⟨s, b, dw⟩) = .error (.protocolError s (some b)) := by
  simp [listSpeakersOp, findSpeakerID, resolveStyle, createAudioQuery,
    synthesis, Except.map, hs]

/-- C6 witness: the hypothesis holds and the theorem applies at status
404 with body "not found". -/
theorem c6_protocol_error_carries_status_witness :
    ((404 : Nat) ≠ 200) ∧
    (listSpeakersOp (some ⟨404, "not found", some []⟩) =
      .error (.protocolError 404 none) ∧
    findSpeakerID (some ⟨404, "not found", some []⟩) "ずんだもん" =
      .error (.protocolError 404 none) ∧
    createAudioQuery (some ⟨404, "not found", some wQuery⟩) =
      .error (.protocolError 404 (some "not found")) ∧
    synthesis (some ⟨404, "not found", some [1]⟩) =
      .error (.protocolError 404 (some "not found"))) :=
  ⟨by decide,
    c6_protocol_error_carries_status 404 (by decide) "not found"
      (some []) (some wQuery) (some [1]) "ずんだもん"⟩

/-- C9: a success-range status other than 200 (such as 201 or 204) also
makes every client operation fail with the protocol error carrying that
status code, rather than succeed. -/
theorem c9_success_range_still_fails (s : Nat) (hgt : 200 < s)
    (hlt : s < 300) (b : String) (dsp : Option (List Speaker))
    (dq : Option AudioQuery) (dw : Option (List Nat)) (name : String) :
    listSpeakersOp (some ⟨s, b, dsp⟩) = .error (.protocolError s none) ∧
    findSpeakerID (some ⟨s, b, dsp⟩) name =
      .error (.protocolError s none) ∧
    createAudioQuery (some ⟨s, b, dq⟩) =
      .error (.protocolError s (some b)) ∧
    synthesis (some ⟨s, b, dw⟩) = .error (.protocolError s (some b)) := by
  have hs : s ≠ 200 := by omega
  simp [listSpeakersOp, findSpeakerID, resolveStyle, createAudioQuery,
    synthesis, Except.map, hs]

/-- C9 witness: the hypotheses hold and the theorem applies at the
success-range status 201. -/
theorem c9_success_range_still_fails_witness :
    ((200 : Nat) < 201) ∧ ((201 : Nat) < 300) ∧
    (listSpeakersOp (some ⟨201, "created", some [wSpeaker]⟩) =
      .error (.protocolError 201 none) ∧
    findSpeakerID (some ⟨201, "created", some [wSpeaker]⟩) "ずんだもん" =
      .error (.protocolError 201 none) ∧
    createAudioQuery (some ⟨201, "created", some wQuery⟩) =
      .error (.protocolError 201 (some "created")) ∧
    synthesis (some ⟨201, "created", some [1]⟩) =
      .error (.protocolError 201 (some "created"))) :=
  ⟨by decide, by decide,
    c9_success_range_still_fails 201 (by decide) (by decide) "created"
      (some [wSpeaker]) (some wQuery) (some [1]) "ずんだもん"⟩

/-- The speaker listing printed between header and footer consists only
of speaker-name and style lines: no network call or file access. -/
theorem listingEvents_no_pipeline (sps : List Speaker) :
    ∀ e ∈ listingEvents sps, e.isPipelineEffect = false := by
  induction sps with
  | nil => simp [listingEvents]
  | cons sp rest ih =>
    intro e he
    simp only [listingEvents, List.mem_cons, List.mem_append,
      List.mem_map] at he
    rcases he with h | ⟨st, _, h⟩ | h
    · subst h; rfl
    · subst h; rfl
    · exact ih e h

/-- C7: in list-speakers mode with a successful catalog fetch, the run
calls only the speakers endpoint, prints every entry's name and each of
its styles' names and identifiers in catalog order, exits 0, and performs
no resolution print, file read, query creation, synthesis call or file
write — whatever the input and output path flags hold. -/
theorem c7_list_mode_short_circuits (f : Flags) (env : Env) (b : String)
    (sps : List Speaker)
    (hshow : f.showActors = true)
    (hfetch : env.speakers = some ⟨200, b, some sps⟩) :
    runMain f env =
      ⟨0, [.netSpeakers, .outListHeader] ++ listingEvents sps ++
        [.outListFooter, .outActorHint]⟩ ∧
    ∀ e ∈ (runMain f env).events, e.isPipelineEffect = false := by
  have hrun : runMain f env =
      ⟨0, [.netSpeakers, .outListHeader] ++ listingEvents sps ++
        [.outListFooter, .outActorHint]⟩ := by
    simp [runMain, hshow, listSpeakersOp, hfetch]
  refine ⟨hrun, ?_⟩
  rw [hrun]
  intro e he
  simp only [List.mem_append, List.mem_cons, List.not_mem_nil,
    or_false] at he
  rcases he with ((h | h) | h) | h | h
  · subst h; rfl
  · subst h; rfl
  · exact listingEvents_no_pipeline sps e h
  · subst h; rfl
  · subst h; rfl

/-- C7 witness: the hypotheses hold and the theorem applies with the
list flag set, input and output paths left empty, and a one-speaker
catalog. -/
theorem c7_list_mode_short_circuits_witness :
    ({ defaultFlags with showActors := true }.showActors = true) ∧
    (wEnv.speakers = some ⟨200, "[]", some [wSpeaker]⟩) ∧
    (runMain { defaultFlags with showActors := true } wEnv =
      ⟨0, [.netSpeakers, .outListHeader] ++ listingEvents [wSpeaker] ++
        [.outListFooter, .outActorHint]⟩ ∧
    ∀ e ∈ (runMain { defaultFlags with showActors := true } wEnv).events,
      e.isPipelineEffect = false) :=
  ⟨by decide, by decide,
    c7_list_mode_short_circuits { defaultFlags with showActors := true }
      wEnv "[]" [wSpeaker] (by decide) (by decide)⟩

/-- C8: outside list-speakers mode, a missing input or output path makes
the run emit only the usage message on the error stream and exit 1: no
network call, no file read and no file write occur. -/
theorem c8_missing_path_usage_exit (f : Flags) (env : Env)
    (hshow : f.showActors = false)
    (hmiss : f.inputFile = "" ∨ f.outputFile = "") :
    runMain f env = ⟨1, [.errUsage]⟩ ∧
    ∀ e ∈ (runMain f env).events, e = .errUsage := by
  have hrun : runMain f env = ⟨1, [.errUsage]⟩ := by
    simp [runMain, hshow, hmiss]
  refine ⟨hrun, ?_⟩
  rw [hrun]
  intro e he
  simpa using he

/-- C8 witness: the hypotheses hold and the theorem applies with the
input path flag left empty. -/
theorem c8_missing_path_usage_exit_witness :
    ({ defaultFlags with outputFile := "out.wav" }.showActors = false) ∧
    ({ defaultFlags with outputFile := "out.wav" }.inputFile = "" ∨
      { defaultFlags with outputFile := "out.wav" }.outputFile = "") ∧
    (runMain { defaultFlags with outputFile := "out.wav" } wEnv =
      ⟨1, [.errUsage]⟩ ∧
    ∀ e ∈ (runMain { defaultFlags with outputFile := "out.wav" }
        wEnv).events, e = .errUsage) :=
  ⟨by decide, by decide,
    c8_missing_path_usage_exit { defaultFlags with outputFile := "out.wav" }
      wEnv (by decide) (by decide)⟩

/-- C10: with the actor flag omitted, the name used for speaker
resolution is exactly "ずんだもん": the default flag value is that string,
and a run against a catalog that lacks it fails with SpeakerNotFound
naming it. -/
theorem c10_default_actor_name (i o : String) (env : Env) (b : String)
    (hi : i ≠ "") (ho : o ≠ "")
    (hfetch : env.speakers = some ⟨200, b, some []⟩) :
    defaultFlags.actorName = "ずんだもん" ∧
    runMain { defaultFlags with inputFile := i, outputFile := o } env =
      ⟨1, [.netSpeakers, .errMsg (.speakerNotFound "ずんだもん")]⟩ := by
  refine ⟨rfl, ?_⟩
  simp [runMain, defaultFlags, hi, ho, hfetch, resolveStyle, scanSpeakers]

/-- Environment whose catalog is empty, used by the C10 witness. -/
def emptyCatalogEnv : Env := { wEnv with speakers := some ⟨200, "[]", some []⟩ }

/-- Flags with only the input and output paths supplied, every other flag
at its default, used by the C10 witness. -/
def pathsOnlyFlags : Flags :=
  { defaultFlags with inputFile := "in.txt", outputFile := "out.wav" }

/-- C10 witness: the hypotheses hold and the theorem applies with
concrete paths and an empty catalog. -/
theorem c10_default_actor_name_witness :
    ("in.txt" ≠ "") ∧ ("out.wav" ≠ "") ∧
    (emptyCatalogEnv.speakers = some ⟨200, "[]", some []⟩) ∧
    (defaultFlags.actorName = "ずんだもん" ∧
    runMain pathsOnlyFlags emptyCatalogEnv =
      ⟨1, [.netSpeakers, .errMsg (.speakerNotFound "ずんだもん")]⟩) :=
  ⟨by decide, by decide, by decide,
    c10_default_actor_name "in.txt" "out.wav" emptyCatalogEnv "[]"
      (by decide) (by decide) (by decide)⟩
